import Mathlib

set_option autoImplicit false

/-!
Verification development for the defold excerpt: the platform window backends
(`engine/platform/src/platform_window_null.cpp`,
`engine/platform/src/platform_window_glfw3.cpp`) and the game-object script
runtime whose interface is `src/gameobject/gameobject_script.h`.
-/

namespace dmPlatform

/-- PlatformResult values used by the window backends (declared in
`platform_window.h`; the constructors are the ones the two backends return). -/
inductive PlatformResult where
  | PLATFORM_RESULT_OK
  | PLATFORM_RESULT_WINDOW_OPEN_ERROR
  | PLATFORM_RESULT_WINDOW_ALREADY_OPENED
  deriving DecidableEq, Repr

/-- Graphics API selector switched on by `OpenWindow` in
`platform_window_glfw3.cpp` lines 122-131. -/
inductive PlatformGraphicsApi where
  | PLATFORM_GRAPHICS_API_OPENGL
  | PLATFORM_GRAPHICS_API_VULKAN
  deriving DecidableEq, Repr

/-- The fields of `WindowParams` that the two `OpenWindow` implementations in
src/ read (`m_Width`, `m_Height`, `m_GraphicsApi`); widths are uint32 values.
The struct is copied whole by the null backend (`m_CreateParams = params`). -/
structure WindowParams where
  m_Width : Nat
  m_Height : Nat
  m_GraphicsApi : PlatformGraphicsApi
  deriving DecidableEq, Repr

namespace Null

/-- `Window` of `platform_window_null.cpp` lines 9-16: creation params, device
state flags, width, height and the one-bit opened flag. -/
structure Window where
  m_CreateParams : WindowParams
  m_DeviceStates : Nat → Bool
  m_WindowWidth : Nat
  m_WindowHeight : Nat
  m_WindowOpened : Bool

/-- `OpenWindow` of `platform_window_null.cpp` lines 30-43: returns
`PLATFORM_RESULT_WINDOW_ALREADY_OPENED` without touching the window when it is
already opened, otherwise stores the params, marks it opened and copies the
dimensions. -/
def OpenWindow (window : Window) (params : WindowParams) :
    PlatformResult × Window :=
  if window.m_WindowOpened then
    (PlatformResult.PLATFORM_RESULT_WINDOW_ALREADY_OPENED, window)
  else
    (PlatformResult.PLATFORM_RESULT_OK,
      { window with
          m_CreateParams := params
          m_WindowOpened := true
          m_WindowWidth := params.m_Width
          m_WindowHeight := params.m_Height })

end Null

namespace Glfw3

/-- `Window` of `platform_window_glfw3.cpp` lines 28-57, restricted to the
fields `OpenWindow` touches: the GLFW window handle (`none` models NULL), the
int32 dimensions, and the two one-bit flags.  The callback pairs are left out:
no code on the `OpenWindow` paths reads or writes them. -/
structure Window where
  m_Window : Option Nat
  m_Width : Int
  m_Height : Int
  m_SwapIntervalSupported : Bool
  m_WindowOpened : Bool
  deriving DecidableEq, Repr

/-- `OpenWindowOpenGL` (lines 85-106): stores the result of
`glfwCreateWindow` (modelled by the `glfwCreate` parameter, `none` on failure)
into `m_Window` first, then returns `PLATFORM_RESULT_WINDOW_OPEN_ERROR` if it
is NULL, else sets `m_SwapIntervalSupported` and returns OK. -/
def OpenWindowOpenGL (glfwCreate : Option Nat) (wnd : Window) :
    PlatformResult × Window :=
  let wnd1 := { wnd with m_Window := glfwCreate }
  match glfwCreate with
  | none => (PlatformResult.PLATFORM_RESULT_WINDOW_OPEN_ERROR, wnd1)
  | some _ =>
    (PlatformResult.PLATFORM_RESULT_OK,
      { wnd1 with m_SwapIntervalSupported := true })

/-- `OpenWindowVulkan` (lines 108-111): always fails. -/
def OpenWindowVulkan (wnd : Window) : PlatformResult × Window :=
  (PlatformResult.PLATFORM_RESULT_WINDOW_OPEN_ERROR, wnd)

/-- `OpenWindow` of `platform_window_glfw3.cpp` lines 113-141: early return
`PLATFORM_RESULT_WINDOW_ALREADY_OPENED` when already opened; otherwise switch
on the graphics API and set `m_WindowOpened` only on OK. -/
def OpenWindow (glfwCreate : Option Nat) (window : Window)
    (params : WindowParams) : PlatformResult × Window :=
  if window.m_WindowOpened then
    (PlatformResult.PLATFORM_RESULT_WINDOW_ALREADY_OPENED, window)
  else
    let out :=
      match params.m_GraphicsApi with
      | PlatformGraphicsApi.PLATFORM_GRAPHICS_API_OPENGL =>
          OpenWindowOpenGL glfwCreate window
      | PlatformGraphicsApi.PLATFORM_GRAPHICS_API_VULKAN =>
          OpenWindowVulkan window
    match out with
    | (PlatformResult.PLATFORM_RESULT_OK, wnd) =>
        (PlatformResult.PLATFORM_RESULT_OK, { wnd with m_WindowOpened := true })
    | (res, wnd) => (res, wnd)

/-- The value of a uint32 reinterpreted as int32, as in the cast
`(int32_t) values_capacity` at lines 304/316. -/
def int32ofUInt32 (n : Nat) : Int :=
  if n < 2 ^ 31 then (n : Int) else (n : Int) - 2 ^ 32

/-- An int32 value returned through a uint32 return type. -/
def uint32ofInt32 (i : Int) : Nat := (i.emod (2 ^ 32)).toNat

/-- `memcpy(dst, src, n)` over byte lists: the first `n` bytes of the
destination region are replaced by the first `n` bytes of the source region. -/
def memcpyBytes (dst src : List Nat) (n : Nat) : List Nat :=
  src.take n ++ dst.drop n

/-- `GetJoystickHats` (lines 300-310).  `hats_count` and `hats_values` model
what `glfwGetJoystickHats` reports (element count and the bytes of memory
starting at the returned pointer); `values` is the memory region starting at
the destination pointer, whose first `values_capacity` bytes are the caller's
buffer.  The code clamps: `count = dmMath::Min(count, (int32_t)
values_capacity)`, then copies `sizeof(float) * count` bytes — sizeof(float)
is 4 — and returns `count` through a uint32. -/
def GetJoystickHats (hats_count : Int) (hats_values : List Nat)
    (values : List Nat) (values_capacity : Nat) : Nat × List Nat :=
  let count : Int := min hats_count (int32ofUInt32 values_capacity)
  let values2 :=
    if 0 < count then memcpyBytes values hats_values (4 * count.toNat)
    else values
  (uint32ofInt32 count, values2)

/-- `GetJoystickButtons` (lines 312-322): same body as `GetJoystickHats`,
including the `sizeof(float) * count` copy size. -/
def GetJoystickButtons (buttons_count : Int) (buttons_values : List Nat)
    (values : List Nat) (values_capacity : Nat) : Nat × List Nat :=
  let count : Int := min buttons_count (int32ofUInt32 values_capacity)
  let values2 :=
    if 0 < count then memcpyBytes values buttons_values (4 * count.toNat)
    else values
  (uint32ofInt32 count, values2)

end Glfw3

/-- Claim C9: a second `OpenWindow` on an already-opened window returns
`PLATFORM_RESULT_WINDOW_ALREADY_OPENED` and returns the window record
unchanged — stored creation parameters, width, height, device states and the
opened flag included — in both the null and the GLFW backends. -/
theorem openWindow_already_opened_state_unchanged
    (wn : Null.Window) (wg : Glfw3.Window) (p q : WindowParams)
    (glfwCreate : Option Nat)
    (hn : wn.m_WindowOpened = true) (hg : wg.m_WindowOpened = true) :
    Null.OpenWindow wn p =
      (PlatformResult.PLATFORM_RESULT_WINDOW_ALREADY_OPENED, wn) ∧
    Glfw3.OpenWindow glfwCreate wg q =
      (PlatformResult.PLATFORM_RESULT_WINDOW_ALREADY_OPENED, wg) := by
  constructor
  · simp [Null.OpenWindow, hn]
  · simp [Glfw3.OpenWindow, hg]

/-- Witness for C9 at a concrete already-opened window in each backend. -/
theorem openWindow_already_opened_state_unchanged_witness :
    Null.OpenWindow
        ⟨⟨11, 22, PlatformGraphicsApi.PLATFORM_GRAPHICS_API_OPENGL⟩,
          (fun _ => false), 11, 22, true⟩
        ⟨640, 480, PlatformGraphicsApi.PLATFORM_GRAPHICS_API_OPENGL⟩ =
      (PlatformResult.PLATFORM_RESULT_WINDOW_ALREADY_OPENED,
        ⟨⟨11, 22, PlatformGraphicsApi.PLATFORM_GRAPHICS_API_OPENGL⟩,
          (fun _ => false), 11, 22, true⟩) ∧
    Glfw3.OpenWindow (some 7) ⟨some 3, 640, 480, true, true⟩
        ⟨640, 480, PlatformGraphicsApi.PLATFORM_GRAPHICS_API_VULKAN⟩ =
      (PlatformResult.PLATFORM_RESULT_WINDOW_ALREADY_OPENED,
        ⟨some 3, 640, 480, true, true⟩) :=
  openWindow_already_opened_state_unchanged
    ⟨⟨11, 22, PlatformGraphicsApi.PLATFORM_GRAPHICS_API_OPENGL⟩,
      (fun _ => false), 11, 22, true⟩
    ⟨some 3, 640, 480, true, true⟩
    ⟨640, 480, PlatformGraphicsApi.PLATFORM_GRAPHICS_API_OPENGL⟩
    ⟨640, 480, PlatformGraphicsApi.PLATFORM_GRAPHICS_API_VULKAN⟩
    (some 7) rfl rfl

/-- Claim C10 (code bug demonstration): with a joystick reporting 2 hats and a
destination buffer of capacity 2, `GetJoystickHats` does return
`min(reported, capacity) = 2`, but its `sizeof(float) * count` memcpy writes
8 bytes, modifying the 6 bytes of memory that follow the 2-byte buffer; the
same holds for `GetJoystickButtons`.  Here the destination region starts as
nine zero bytes (buffer = first 2) and the source region holds bytes 7. -/
theorem getJoystickHats_buttons_write_past_capacity :
    (Glfw3.GetJoystickHats 2 [7, 7, 7, 7, 7, 7, 7, 7]
        [0, 0, 0, 0, 0, 0, 0, 0, 0] 2).1 = 2 ∧
    (Glfw3.GetJoystickHats 2 [7, 7, 7, 7, 7, 7, 7, 7]
        [0, 0, 0, 0, 0, 0, 0, 0, 0] 2).2 = [7, 7, 7, 7, 7, 7, 7, 7, 0] ∧
    ((Glfw3.GetJoystickHats 2 [7, 7, 7, 7, 7, 7, 7, 7]
        [0, 0, 0, 0, 0, 0, 0, 0, 0] 2).2.drop 2 ≠
      ([0, 0, 0, 0, 0, 0, 0, 0, 0] : List Nat).drop 2) ∧
    (Glfw3.GetJoystickButtons 2 [7, 7, 7, 7, 7, 7, 7, 7]
        [0, 0, 0, 0, 0, 0, 0, 0, 0] 2).2 = [7, 7, 7, 7, 7, 7, 7, 7, 0] := by
  decide

end dmPlatform

namespace dmGameObject

/-- `ScriptResult` from `gameobject_script.h` lines 19-24. -/
inductive ScriptResult where
  | SCRIPT_RESULT_FAILED
  | SCRIPT_RESULT_NO_FUNCTION
  | SCRIPT_RESULT_OK
  deriving DecidableEq, Repr

/-- The integer values the header assigns to `ScriptResult`. -/
def ScriptResult.toInt : ScriptResult → Int
  | ScriptResult.SCRIPT_RESULT_FAILED => -1
  | ScriptResult.SCRIPT_RESULT_NO_FUNCTION => 0
  | ScriptResult.SCRIPT_RESULT_OK => 1

/-- `ScriptFunction` from `gameobject_script.h` lines 26-33: the closed
enumeration of entry-point kinds. -/
inductive ScriptFunction where
  | SCRIPT_FUNCTION_INIT
  | SCRIPT_FUNCTION_UPDATE
  | SCRIPT_FUNCTION_ONMESSAGE
  | SCRIPT_FUNCTION_ONINPUT
  deriving DecidableEq, Repr

/-- `MAX_SCRIPT_FUNCTION_COUNT` from the header: the number of entry-point
slots of a Script. -/
def MAX_SCRIPT_FUNCTION_COUNT : Nat := 4

/-- The enumeration order of `ScriptFunction` in the header. -/
def scriptFunctionList : List ScriptFunction :=
  [ScriptFunction.SCRIPT_FUNCTION_INIT,
   ScriptFunction.SCRIPT_FUNCTION_UPDATE,
   ScriptFunction.SCRIPT_FUNCTION_ONMESSAGE,
   ScriptFunction.SCRIPT_FUNCTION_ONINPUT]

/-- Modelled from the spec: the entry-point names bound to
`SCRIPT_FUNCTION_NAMES` (declared extern in the header; its defining array in
`gameobject_script.cpp` is not in src/).  Spec §2/§3 names the recognized
kinds `init`, `update`, `on_message`, `on_input`. -/
def SCRIPT_FUNCTION_NAMES : ScriptFunction → String
  | ScriptFunction.SCRIPT_FUNCTION_INIT => "init"
  | ScriptFunction.SCRIPT_FUNCTION_UPDATE => "update"
  | ScriptFunction.SCRIPT_FUNCTION_ONMESSAGE => "on_message"
  | ScriptFunction.SCRIPT_FUNCTION_ONINPUT => "on_input"

/-- `Script` from `gameobject_script.h` lines 37-40: a fixed-size array
`m_FunctionReferences`, one slot per `ScriptFunction`.  In the C record each
slot is an int VM reference where an unset slot holds the VM adapter's
"no reference" sentinel; an absent slot is modelled as `none`. -/
structure Script where
  m_FunctionReferences : ScriptFunction → Option Nat

/-- `ScriptInstance` from `gameobject_script.h` lines 43-49: the Script it was
created from, the owning Instance (opaque identity), and the two VM
references. -/
structure ScriptInstance where
  m_Script : Script
  m_Instance : Nat
  m_InstanceReference : Nat
  m_ScriptDataReference : Nat

/-- `ScriptWorld` from `gameobject_script.h` lines 51-56: the ordered registry
of live script instances (`dmArray<ScriptInstance*>`), modelled by the
instances' identities in insertion order. -/
structure ScriptWorld where
  m_Instances : List Nat

/-- Modelled from the spec: the scripting-VM adapter's reference bookkeeping
("acquire/release a generic reference", spec §6), instrumented with
acquisition and release logs as §8 Reference symmetry prescribes.  The
adapter itself is external; its implementation is not in src/. -/
structure LuaAdapter where
  nextRef : Nat
  acquireLog : List Nat
  releaseLog : List Nat

/-- Modelled from the spec: acquiring a reference returns a fresh handle and
records it. -/
def acquireReference (vm : LuaAdapter) : Nat × LuaAdapter :=
  (vm.nextRef, ⟨vm.nextRef + 1, vm.acquireLog ++ [vm.nextRef], vm.releaseLog⟩)

/-- Modelled from the spec: releasing a reference records the release. -/
def releaseReference (vm : LuaAdapter) (r : Nat) : LuaAdapter :=
  ⟨vm.nextRef, vm.acquireLog, vm.releaseLog ++ [r]⟩

/-- Modelled from the spec: `NewScript` compiles the buffer and resolves each
recognized entry-point name, leaving unresolved slots empty (spec §4.1 Load);
the body in `gameobject_script.cpp` is not in src/.  `compileFn` is the VM
adapter's compile capability: the resolved slots on success, `none` on a
CompileError. -/
def NewScript
    (compileFn : List Nat → String → Option (ScriptFunction → Option Nat))
    (buffer : List Nat) (filename : String) : Option Script :=
  (compileFn buffer filename).map (fun refs => ⟨refs⟩)

/-- Modelled from the spec: `ReloadScript` (declared at `gameobject_script.h`
line 62; its body in `gameobject_script.cpp` is not in src/).  Spec §4.1:
recompiles; on success atomically swaps all entry-point references; on
failure "leaves `script` entirely unmodified and reports failure". -/
def ReloadScript
    (compileFn : List Nat → String → Option (ScriptFunction → Option Nat))
    (script : Script) (buffer : List Nat) (filename : String) :
    Bool × Script :=
  match compileFn buffer filename with
  | none => (false, script)
  | some refs => (true, ⟨refs⟩)

/-- Modelled from the spec: `NewScriptInstance` (declared at
`gameobject_script.h` line 65; body not in src/).  Spec §4.2 Create:
"allocates a VM-resident state table and an anchor for the owning Instance;
both references are stored". -/
def NewScriptInstance (vm : LuaAdapter) (script : Script) (inst : Nat) :
    ScriptInstance × LuaAdapter :=
  let a := acquireReference vm
  let b := acquireReference a.2
  (⟨script, inst, a.1, b.1⟩, b.2)

/-- Modelled from the spec: `DeleteScriptInstance` (declared at
`gameobject_script.h` line 66; body not in src/).  Spec §4.2 Destroy:
"releases both VM references". -/
def DeleteScriptInstance (vm : LuaAdapter) (si : ScriptInstance) : LuaAdapter :=
  releaseReference (releaseReference vm si.m_InstanceReference)
    si.m_ScriptDataReference

/-- Modelled from the spec: entry-point invocation (spec §4.2): no-ops with
`SCRIPT_RESULT_NO_FUNCTION` when the Script slot is empty; otherwise invokes
the referenced callable through the adapter.  `call` is the adapter's invoke
capability: from the function reference and the instance's VM-resident state
(opaquely a `Nat`), the new state and whether the call succeeded.  A failure
yields `SCRIPT_RESULT_FAILED`, never a process abort, and no VM reference is
acquired or released by invocation. -/
def RunScriptFunction (vm : LuaAdapter) (si : ScriptInstance)
    (fn : ScriptFunction) (call : Nat → Nat → Nat × Bool) (state : Nat) :
    ScriptResult × Nat × LuaAdapter :=
  match si.m_Script.m_FunctionReferences fn with
  | none => (ScriptResult.SCRIPT_RESULT_NO_FUNCTION, state, vm)
  | some r =>
    let out := call r state
    ((if out.2 then ScriptResult.SCRIPT_RESULT_OK
      else ScriptResult.SCRIPT_RESULT_FAILED), out.1, vm)

/-- A sequence of lifecycle invocations on one instance, as they happen
between creation and deletion. -/
def runEvents (vm : LuaAdapter) (si : ScriptInstance)
    (evs : List (ScriptFunction × (Nat → Nat → Nat × Bool))) (state : Nat) :
    Nat × LuaAdapter :=
  match evs with
  | [] => (state, vm)
  | (fn, call) :: rest =>
    let out := RunScriptFunction vm si fn call state
    runEvents out.2.2 si rest out.2.1

/-- A Script with every slot absent. -/
def inertScript : Script := ⟨fun _ => none⟩

theorem runScriptFunction_adapter_eq (vm : LuaAdapter) (si : ScriptInstance)
    (fn : ScriptFunction) (call : Nat → Nat → Nat × Bool) (state : Nat) :
    (RunScriptFunction vm si fn call state).2.2 = vm := by
  unfold RunScriptFunction
  cases si.m_Script.m_FunctionReferences fn <;> rfl

theorem runEvents_adapter_eq (si : ScriptInstance)
    (evs : List (ScriptFunction × (Nat → Nat → Nat × Bool))) :
    ∀ (vm : LuaAdapter) (state : Nat), (runEvents vm si evs state).2 = vm := by
  induction evs with
  | nil => intro vm state; rfl
  | cons ev rest ih =>
    intro vm state
    obtain ⟨fn, call⟩ := ev
    unfold runEvents
    rw [ih, runScriptFunction_adapter_eq]

/-- Claim C1, counterexample to the claim as stated: the header's closed
enumeration gives a Script exactly four entry-point slots
(`MAX_SCRIPT_FUNCTION_COUNT` = 4), so a failed reload cannot leave "all five
prior references" in place — there is no fifth reference. -/
theorem script_slot_count_is_four_not_five :
    scriptFunctionList.length = MAX_SCRIPT_FUNCTION_COUNT ∧
    MAX_SCRIPT_FUNCTION_COUNT = 4 ∧ ¬ MAX_SCRIPT_FUNCTION_COUNT = 5 := by
  decide

/-- Claim C1 (amended to the four entry-point references the header defines):
for a Script whose entry points were loaded, a Reload whose source fails to
compile returns false and leaves the Script entirely unmodified — every one of
the four slots keeps its stored reference — and an existing ScriptInstance of
that Script runs every entry point exactly as before the failed reload. -/
theorem reloadScript_failed_compile_atomic
    (compileFn : List Nat → String → Option (ScriptFunction → Option Nat))
    (s : Script) (si : ScriptInstance) (buffer : List Nat) (filename : String)
    (vm : LuaAdapter) (fn : ScriptFunction) (call : Nat → Nat → Nat × Bool)
    (st : Nat)
    (hfail : compileFn buffer filename = none)
    (hsi : si.m_Script = s) :
    (ReloadScript compileFn s buffer filename).1 = false ∧
    (ReloadScript compileFn s buffer filename).2 = s ∧
    (∀ f, ((ReloadScript compileFn s buffer filename).2).m_FunctionReferences f
        = s.m_FunctionReferences f) ∧
    RunScriptFunction vm
        { si with m_Script := (ReloadScript compileFn s buffer filename).2 }
        fn call st
      = RunScriptFunction vm si fn call st := by
  subst hsi
  have h2 : ReloadScript compileFn si.m_Script buffer filename =
      (false, si.m_Script) := by
    unfold ReloadScript; rw [hfail]
  refine ⟨by rw [h2], by rw [h2], fun f => by rw [h2], ?_⟩
  rw [h2]

/-- Witness for the amended C1 at a concrete Script, instance and failing
compiler. -/
theorem reloadScript_failed_compile_atomic_witness :
    (ReloadScript (fun _ _ => none) ⟨fun _ => some 9⟩ [1, 2] "a.script").1
      = false ∧
    (ReloadScript (fun _ _ => none) ⟨fun _ => some 9⟩ [1, 2] "a.script").2
      = (⟨fun _ => some 9⟩ : Script) ∧
    (∀ f, ((ReloadScript (fun _ _ => none) ⟨fun _ => some 9⟩ [1, 2]
          "a.script").2).m_FunctionReferences f
        = (⟨fun _ => some 9⟩ : Script).m_FunctionReferences f) ∧
    RunScriptFunction ⟨0, [], []⟩
        { (⟨⟨fun _ => some 9⟩, 0, 1, 2⟩ : ScriptInstance) with
            m_Script := (ReloadScript (fun _ _ => none) ⟨fun _ => some 9⟩
              [1, 2] "a.script").2 }
        ScriptFunction.SCRIPT_FUNCTION_UPDATE (fun _ st => (st + 1, true)) 5
      = RunScriptFunction ⟨0, [], []⟩ ⟨⟨fun _ => some 9⟩, 0, 1, 2⟩
          ScriptFunction.SCRIPT_FUNCTION_UPDATE (fun _ st => (st + 1, true)) 5 :=
  reloadScript_failed_compile_atomic (fun _ _ => none) ⟨fun _ => some 9⟩
    ⟨⟨fun _ => some 9⟩, 0, 1, 2⟩ [1, 2] "a.script" ⟨0, [], []⟩
    ScriptFunction.SCRIPT_FUNCTION_UPDATE (fun _ st => (st + 1, true)) 5
    rfl rfl

/-- Claim C5: NewScriptInstance acquires exactly two VM references — the
instance-wrapper anchor and the instance-data table — stores both in the
ScriptInstance, and after any sequence of lifecycle invocations (whether the
last one errored or not) the single matching DeleteScriptInstance releases
exactly those two references exactly once: the adapter's release log grows by
precisely the two distinct acquired references. -/
theorem scriptInstance_reference_symmetry (vm : LuaAdapter) (s : Script)
    (inst : Nat) (evs : List (ScriptFunction × (Nat → Nat → Nat × Bool)))
    (st : Nat) :
    ((NewScriptInstance vm s inst).2).acquireLog =
      vm.acquireLog ++ [(NewScriptInstance vm s inst).1.m_InstanceReference,
        (NewScriptInstance vm s inst).1.m_ScriptDataReference] ∧
    ((NewScriptInstance vm s inst).2).releaseLog = vm.releaseLog ∧
    (NewScriptInstance vm s inst).1.m_InstanceReference ≠
      (NewScriptInstance vm s inst).1.m_ScriptDataReference ∧
    (DeleteScriptInstance
        (runEvents (NewScriptInstance vm s inst).2
          (NewScriptInstance vm s inst).1 evs st).2
        (NewScriptInstance vm s inst).1).acquireLog =
      vm.acquireLog ++ [(NewScriptInstance vm s inst).1.m_InstanceReference,
        (NewScriptInstance vm s inst).1.m_ScriptDataReference] ∧
    (DeleteScriptInstance
        (runEvents (NewScriptInstance vm s inst).2
          (NewScriptInstance vm s inst).1 evs st).2
        (NewScriptInstance vm s inst).1).releaseLog =
      vm.releaseLog ++ [(NewScriptInstance vm s inst).1.m_InstanceReference,
        (NewScriptInstance vm s inst).1.m_ScriptDataReference] := by
  refine ⟨?_, rfl, by simp [NewScriptInstance, acquireReference], ?_, ?_⟩
  · simp [NewScriptInstance, acquireReference]
  · rw [runEvents_adapter_eq]
    simp [NewScriptInstance, acquireReference, DeleteScriptInstance,
      releaseReference]
  · rw [runEvents_adapter_eq]
    simp [NewScriptInstance, acquireReference, DeleteScriptInstance,
      releaseReference]

/-- Claim C6: a Run call on an instance whose Script has no reference in the
corresponding slot is a no-op: it returns SCRIPT_RESULT_NO_FUNCTION — never
SCRIPT_RESULT_FAILED — and leaves the instance state and the adapter
untouched. -/
theorem runScriptFunction_missing_slot_silent (vm : LuaAdapter)
    (si : ScriptInstance) (fn : ScriptFunction)
    (call : Nat → Nat → Nat × Bool) (st : Nat)
    (h : si.m_Script.m_FunctionReferences fn = none) :
    RunScriptFunction vm si fn call st =
      (ScriptResult.SCRIPT_RESULT_NO_FUNCTION, st, vm) ∧
    (RunScriptFunction vm si fn call st).1 ≠
      ScriptResult.SCRIPT_RESULT_FAILED := by
  have h2 : RunScriptFunction vm si fn call st =
      (ScriptResult.SCRIPT_RESULT_NO_FUNCTION, st, vm) := by
    unfold RunScriptFunction; rw [h]
  exact ⟨h2, by rw [h2]; simp⟩

/-- Witness for C6: RunUpdate on an instance of the inert Script. -/
theorem runScriptFunction_missing_slot_silent_witness :
    RunScriptFunction ⟨0, [], []⟩ ⟨inertScript, 0, 1, 2⟩
        ScriptFunction.SCRIPT_FUNCTION_UPDATE (fun _ st => (st + 1, false)) 5 =
      (ScriptResult.SCRIPT_RESULT_NO_FUNCTION, 5, ⟨0, [], []⟩) ∧
    (RunScriptFunction ⟨0, [], []⟩ ⟨inertScript, 0, 1, 2⟩
        ScriptFunction.SCRIPT_FUNCTION_UPDATE (fun _ st => (st + 1, false)) 5).1
      ≠ ScriptResult.SCRIPT_RESULT_FAILED :=
  runScriptFunction_missing_slot_silent ⟨0, [], []⟩ ⟨inertScript, 0, 1, 2⟩
    ScriptFunction.SCRIPT_FUNCTION_UPDATE (fun _ st => (st + 1, false)) 5 rfl

/-- Claim C7: a Script is a fixed-size array of optional entry-point
references with exactly one slot per kind of the closed four-element
enumeration init, update, on_message, on_input; every slot is either absent
or holds a reference; and the Script with every slot absent is legal and
silently inert — every Run on it returns SCRIPT_RESULT_NO_FUNCTION and
changes nothing. -/
theorem script_fixed_optional_slots :
    MAX_SCRIPT_FUNCTION_COUNT = 4 ∧
    scriptFunctionList.length = MAX_SCRIPT_FUNCTION_COUNT ∧
    scriptFunctionList.Nodup ∧
    (∀ f : ScriptFunction, f ∈ scriptFunctionList) ∧
    scriptFunctionList.map SCRIPT_FUNCTION_NAMES =
      ["init", "update", "on_message", "on_input"] ∧
    (∀ (s : Script) (f : ScriptFunction),
        s.m_FunctionReferences f = none ∨
          ∃ r, s.m_FunctionReferences f = some r) ∧
    (∀ (vm : LuaAdapter) (inst r1 r2 : Nat) (f : ScriptFunction)
        (call : Nat → Nat → Nat × Bool) (st : Nat),
        RunScriptFunction vm ⟨inertScript, inst, r1, r2⟩ f call st =
          (ScriptResult.SCRIPT_RESULT_NO_FUNCTION, st, vm)) := by
  refine ⟨rfl, rfl, by decide, ?_, by decide, ?_, ?_⟩
  · intro f; cases f <;> decide
  · intro s f
    cases h : s.m_FunctionReferences f with
    | none => exact Or.inl rfl
    | some r => exact Or.inr ⟨r, rfl⟩
  · intro vm inst r1 r2 f call st
    rfl

/-- Modelled from the spec: one Update pass over a world's registry (spec
§4.4/§5; the dispatcher body in `gameobject_script.cpp` is not in src/).  The
pass captures the instance list at entry (snapshot-at-entry) and walks the
snapshot in registry order; a snapshot member no longer present in the world
when its turn comes is skipped; each visited instance's update (`beh i world`,
returning the world's new instance list and the instance's ScriptResult) may
add and remove instances; a SCRIPT_RESULT_FAILED is collected into the
frame's diagnostic list and the pass continues with the next instance.
Returns (final instance list, visit order, failed ids). -/
def updatePass (beh : Nat → List Nat → List Nat × ScriptResult) :
    List Nat → List Nat → List Nat × List Nat × List Nat
  | [], world => (world, [], [])
  | i :: rest, world =>
    if i ∈ world then
      ((updatePass beh rest (beh i world).1).1,
        i :: (updatePass beh rest (beh i world).1).2.1,
        (if (beh i world).2 = ScriptResult.SCRIPT_RESULT_FAILED then [i]
          else []) ++ (updatePass beh rest (beh i world).1).2.2)
    else updatePass beh rest world

/-- Modelled from the spec: `Update(world, context)` (spec §4.4) runs one pass
whose snapshot is the world's instance list at entry. -/
def UpdateWorld (beh : Nat → List Nat → List Nat × ScriptResult)
    (w : ScriptWorld) : ScriptWorld × List Nat × List Nat :=
  (⟨(updatePass beh w.m_Instances w.m_Instances).1⟩,
    (updatePass beh w.m_Instances w.m_Instances).2.1,
    (updatePass beh w.m_Instances w.m_Instances).2.2)

theorem updatePass_cons_mem (beh : Nat → List Nat → List Nat × ScriptResult)
    (i : Nat) (rest world : List Nat) (h : i ∈ world) :
    updatePass beh (i :: rest) world =
      ((updatePass beh rest (beh i world).1).1,
        i :: (updatePass beh rest (beh i world).1).2.1,
        (if (beh i world).2 = ScriptResult.SCRIPT_RESULT_FAILED then [i]
          else []) ++ (updatePass beh rest (beh i world).1).2.2) := by
  simp [updatePass, h]

theorem updatePass_cons_not_mem
    (beh : Nat → List Nat → List Nat × ScriptResult)
    (i : Nat) (rest world : List Nat) (h : i ∉ world) :
    updatePass beh (i :: rest) world = updatePass beh rest world := by
  simp [updatePass, h]

theorem updatePass_visited_sublist
    (beh : Nat → List Nat → List Nat × ScriptResult) (snap : List Nat) :
    ∀ world : List Nat, ((updatePass beh snap world).2.1).Sublist snap := by
  induction snap with
  | nil => intro world; simp [updatePass]
  | cons i rest ih =>
    intro world
    by_cases h : i ∈ world
    · rw [updatePass_cons_mem beh i rest world h]
      exact (ih _).cons₂ i
    · rw [updatePass_cons_not_mem beh i rest world h]
      exact (ih world).cons i

theorem updatePass_preserved_mem_visited
    (beh : Nat → List Nat → List Nat × ScriptResult) (j : Nat)
    (hpres : ∀ i l, j ∈ l → j ∈ (beh i l).1) (snap : List Nat) :
    ∀ world : List Nat, j ∈ snap → j ∈ world →
      j ∈ (updatePass beh snap world).2.1 := by
  induction snap with
  | nil => intro world hsnap _; cases hsnap
  | cons i rest ih =>
    intro world hsnap hw
    by_cases h : i ∈ world
    · rw [updatePass_cons_mem beh i rest world h]
      rcases List.mem_cons.mp hsnap with hji | hjr
      · exact hji ▸ List.mem_cons_self i _
      · exact List.mem_cons_of_mem i (ih _ hjr (hpres i world hw))
    · rw [updatePass_cons_not_mem beh i rest world h]
      rcases List.mem_cons.mp hsnap with hji | hjr
      · exact absurd (hji ▸ hw) h
      · exact ih world hjr hw

theorem updatePass_visited_eq_of_all_present
    (beh : Nat → List Nat → List Nat × ScriptResult)
    (hpres : ∀ i l j, j ∈ l → j ∈ (beh i l).1) (snap : List Nat) :
    ∀ world : List Nat, (∀ j, j ∈ snap → j ∈ world) →
      (updatePass beh snap world).2.1 = snap := by
  induction snap with
  | nil => intro world _; simp [updatePass]
  | cons i rest ih =>
    intro world hw
    have hi : i ∈ world := hw i (List.mem_cons_self i rest)
    rw [updatePass_cons_mem beh i rest world hi]
    have : (updatePass beh rest (beh i world).1).2.1 = rest :=
      ih _ (fun j hj => hpres i world j (hw j (List.mem_cons_of_mem i hj)))
    rw [this]

theorem updatePass_failed_collected
    (beh : Nat → List Nat → List Nat × ScriptResult) (j : Nat)
    (hpres : ∀ i l, j ∈ l → j ∈ (beh i l).1)
    (hfail : ∀ l, (beh j l).2 = ScriptResult.SCRIPT_RESULT_FAILED)
    (snap : List Nat) :
    ∀ world : List Nat, j ∈ snap → j ∈ world →
      j ∈ (updatePass beh snap world).2.2 := by
  induction snap with
  | nil => intro world hsnap _; cases hsnap
  | cons i rest ih =>
    intro world hsnap hw
    by_cases h : i ∈ world
    · rw [updatePass_cons_mem beh i rest world h]
      rcases List.mem_cons.mp hsnap with hji | hjr
      · subst hji
        exact List.mem_append_left _ (by rw [hfail world]; exact List.mem_singleton.mpr rfl)
      · exact List.mem_append_right _ (ih _ hjr (hpres i world hw))
    · rw [updatePass_cons_not_mem beh i rest world h]
      rcases List.mem_cons.mp hsnap with hji | hjr
      · exact absurd (hji ▸ hw) h
      · exact ih world hjr hw

/-- Claim C2: an Update pass visits only instances that were in the world's
registry when the pass began and in that insertion order (so an instance added
to the world during the pass is not visited until the next pass), and an
instance that stays in the world throughout the pass — even while other
instances are removed mid-pass — is still visited exactly once. -/
theorem updateWorld_snapshot_isolation
    (beh : Nat → List Nat → List Nat × ScriptResult) (w : ScriptWorld)
    (j : Nat)
    (hnodup : w.m_Instances.Nodup)
    (hj : j ∈ w.m_Instances)
    (hpres : ∀ i l, j ∈ l → j ∈ (beh i l).1) :
    ((UpdateWorld beh w).2.1).Sublist w.m_Instances ∧
    (∀ k, k ∈ (UpdateWorld beh w).2.1 → k ∈ w.m_Instances) ∧
    j ∈ (UpdateWorld beh w).2.1 ∧
    (UpdateWorld beh w).2.1.count j = 1 := by
  have hsub : ((UpdateWorld beh w).2.1).Sublist w.m_Instances :=
    updatePass_visited_sublist beh w.m_Instances w.m_Instances
  have hmem : j ∈ (UpdateWorld beh w).2.1 :=
    updatePass_preserved_mem_visited beh j hpres w.m_Instances w.m_Instances
      hj hj
  refine ⟨hsub, fun k hk => hsub.subset hk, hmem, ?_⟩
  exact List.count_eq_one_of_mem (hsub.nodup hnodup) hmem

/-- Witness behaviour for C2: instance 1 removes instance 2 from the world
and adds a new instance 4 mid-pass; every run reports OK. -/
def removeAddBeh : Nat → List Nat → List Nat × ScriptResult :=
  fun i l =>
    (if i = 1 then l.filter (fun x => x != 2) ++ [4] else l,
      ScriptResult.SCRIPT_RESULT_OK)

/-- Witness for C2: world [1, 2, 3]; instance 1 removes 2 and adds 4 during
the pass; instance 3 is still visited exactly once, and the pass visits only
pass-begin instances in order. -/
theorem updateWorld_snapshot_isolation_witness :
    ((UpdateWorld removeAddBeh ⟨[1, 2, 3]⟩).2.1).Sublist
      (⟨[1, 2, 3]⟩ : ScriptWorld).m_Instances ∧
    (∀ k, k ∈ (UpdateWorld removeAddBeh ⟨[1, 2, 3]⟩).2.1 →
      k ∈ (⟨[1, 2, 3]⟩ : ScriptWorld).m_Instances) ∧
    3 ∈ (UpdateWorld removeAddBeh ⟨[1, 2, 3]⟩).2.1 ∧
    (UpdateWorld removeAddBeh ⟨[1, 2, 3]⟩).2.1.count 3 = 1 :=
  updateWorld_snapshot_isolation removeAddBeh ⟨[1, 2, 3]⟩ 3 (by decide)
    (by decide)
    (by
      intro i l h
      unfold removeAddBeh
      dsimp
      split
      · exact List.mem_append_left _ (List.mem_filter.mpr ⟨h, rfl⟩)
      · exact h)

/-- Claim C3: when an instance's update reports SCRIPT_RESULT_FAILED, the
failure is collected into the pass's diagnostic output, the pass is not
aborted — an instance registered after it that stays in the world still
receives its update call in the same pass — and the world remains iterable:
a subsequent pass over the resulting world visits exactly its instance
list. -/
theorem updateWorld_fault_isolation
    (beh : Nat → List Nat → List Nat × ScriptResult) (w : ScriptWorld)
    (a b : Nat) (l1 l2 : List Nat)
    (hsplit : w.m_Instances = l1 ++ a :: l2)
    (hb : b ∈ l2)
    (hpresA : ∀ i l, a ∈ l → a ∈ (beh i l).1)
    (hpresB : ∀ i l, b ∈ l → b ∈ (beh i l).1)
    (hfailA : ∀ l, (beh a l).2 = ScriptResult.SCRIPT_RESULT_FAILED) :
    a ∈ (UpdateWorld beh w).2.2 ∧
    b ∈ (UpdateWorld beh w).2.1 ∧
    (UpdateWorld (fun _ l => (l, ScriptResult.SCRIPT_RESULT_OK))
        (UpdateWorld beh w).1).2.1 = ((UpdateWorld beh w).1).m_Instances := by
  have ha : a ∈ w.m_Instances := by
    rw [hsplit]; exact List.mem_append_right l1 (List.mem_cons_self a l2)
  have hbw : b ∈ w.m_Instances := by
    rw [hsplit]; exact List.mem_append_right l1 (List.mem_cons_of_mem a hb)
  refine ⟨?_, ?_, ?_⟩
  · exact updatePass_failed_collected beh a hpresA hfailA w.m_Instances
      w.m_Instances ha ha
  · exact updatePass_preserved_mem_visited beh b hpresB w.m_Instances
      w.m_Instances hbw hbw
  · exact updatePass_visited_eq_of_all_present _ (fun _ _ _ hj => hj) _ _
      (fun _ hj => hj)

/-- Witness behaviour for C3: instance 1's update always fails; no instance
mutates the world. -/
def failBeh : Nat → List Nat → List Nat × ScriptResult :=
  fun i l =>
    (l, if i = 1 then ScriptResult.SCRIPT_RESULT_FAILED
        else ScriptResult.SCRIPT_RESULT_OK)

/-- Witness for C3: world [1, 2]; instance 1 fails, instance 2 is still
visited and the world stays iterable. -/
theorem updateWorld_fault_isolation_witness :
    1 ∈ (UpdateWorld failBeh ⟨[1, 2]⟩).2.2 ∧
    2 ∈ (UpdateWorld failBeh ⟨[1, 2]⟩).2.1 ∧
    (UpdateWorld (fun _ l => (l, ScriptResult.SCRIPT_RESULT_OK))
        (UpdateWorld failBeh ⟨[1, 2]⟩).1).2.1 =
      ((UpdateWorld failBeh ⟨[1, 2]⟩).1).m_Instances :=
  updateWorld_fault_isolation failBeh ⟨[1, 2]⟩ 1 2 [] [2] rfl (by decide)
    (fun _ _ h => h) (fun _ _ h => h) (fun _ => rfl)

/-- Modelled from the spec: `DispatchInput(world, inputEvent) -> consumed`
(spec §4.4): iterates instances in registry order and stops at the first
instance whose RunOnInput reports the input consumed, returning that result;
instances after the consumer are not visited for that event.  `consumes i`
is whether instance i's RunOnInput reports the event consumed; returns the
consumed flag and the visit order. -/
def dispatchInputPass (consumes : Nat → Bool) : List Nat → Bool × List Nat
  | [] => (false, [])
  | i :: rest =>
    if consumes i then (true, [i])
    else ((dispatchInputPass consumes rest).1,
      i :: (dispatchInputPass consumes rest).2)

/-- Modelled from the spec: DispatchInput walks the world's registry. -/
def DispatchInput (consumes : Nat → Bool) (w : ScriptWorld) :
    Bool × List Nat :=
  dispatchInputPass consumes w.m_Instances

theorem dispatchInputPass_first_consumer (consumes : Nat → Bool) (j : Nat)
    (l2 : List Nat) (hj : consumes j = true) :
    ∀ l1 : List Nat, (∀ k, k ∈ l1 → consumes k = false) →
      dispatchInputPass consumes (l1 ++ j :: l2) = (true, l1 ++ [j]) := by
  intro l1
  induction l1 with
  | nil => intro _; simp [dispatchInputPass, hj]
  | cons i rest ih =>
    intro h
    have hi : consumes i = false := h i (List.mem_cons_self i rest)
    have hrest := ih (fun k hk => h k (List.mem_cons_of_mem i hk))
    simp [dispatchInputPass, hi, hrest]

/-- Claim C4: DispatchInput visits instances in registry (insertion) order up
to and including the first instance whose RunOnInput reports the input
consumed, returns "consumed", and invokes no instance after that consumer for
the event. -/
theorem dispatchInput_first_consumer_wins (consumes : Nat → Bool)
    (w : ScriptWorld) (j : Nat) (l1 l2 : List Nat)
    (hsplit : w.m_Instances = l1 ++ j :: l2)
    (h1 : ∀ k, k ∈ l1 → consumes k = false)
    (hj : consumes j = true)
    (hnodup : w.m_Instances.Nodup) :
    DispatchInput consumes w = (true, l1 ++ [j]) ∧
    (∀ k, k ∈ l2 → k ∉ (DispatchInput consumes w).2) := by
  have hres : DispatchInput consumes w = (true, l1 ++ [j]) := by
    unfold DispatchInput
    rw [hsplit]
    exact dispatchInputPass_first_consumer consumes j l2 hj l1 h1
  refine ⟨hres, ?_⟩
  intro k hk
  rw [hres]
  rw [hsplit] at hnodup
  rcases List.nodup_append.mp hnodup with ⟨_, hnd2, hdisj⟩
  intro hmem
  rcases List.mem_append.mp hmem with hk1 | hkj
  · exact hdisj hk1 (List.mem_cons_of_mem j hk)
  · have : k = j := List.mem_singleton.mp hkj
    subst this
    exact (List.nodup_cons.mp hnd2).1 hk

/-- Witness for C4: three instances [1, 2, 3] where instance 2 consumes the
event: DispatchInput returns consumed having visited [1, 2]; instance 3 is
not visited. -/
theorem dispatchInput_first_consumer_wins_witness :
    DispatchInput (fun k => k == 2) ⟨[1, 2, 3]⟩ = (true, [1] ++ [2]) ∧
    (∀ k, k ∈ [3] → k ∉ (DispatchInput (fun k => k == 2) ⟨[1, 2, 3]⟩).2) :=
  dispatchInput_first_consumer_wins (fun k => k == 2) ⟨[1, 2, 3]⟩ 2 [1] [3]
    rfl (by decide) rfl (by decide)

/-- Result codes of message dispatch: spec §7 names `RoutingError` for a
DispatchMessage target not found in the world. -/
inductive DispatchResult where
  | DISPATCH_OK
  | DISPATCH_ROUTING_ERROR
  deriving DecidableEq, Repr

/-- Modelled from the spec: `DispatchMessage(world, targetInstance,
messagePayload)` (spec §4.4/§7): routes to exactly one instance's
RunOnMessage — the resolved target — and reports a RoutingError to the
caller when the target is not found in the world, affecting no instance.
`handler` is the target's on_message entry applied to the payload; `states`
maps each instance id to its VM-resident state.  Returns the result, the
list of instances whose RunOnMessage was invoked, and the new states. -/
def DispatchMessage (w : ScriptWorld) (target : Nat) (handler : Nat → Nat)
    (states : Nat → Nat) : DispatchResult × List Nat × (Nat → Nat) :=
  if target ∈ w.m_Instances then
    (DispatchResult.DISPATCH_OK, [target],
      fun i => if i = target then handler (states i) else states i)
  else
    (DispatchResult.DISPATCH_ROUTING_ERROR, [], states)

/-- Claim C8: DispatchMessage invokes RunOnMessage on exactly one instance —
the resolved target — leaving every other instance's state unchanged; when
the target is not found in the world it reports a RoutingError to the caller,
invokes no instance, and changes no instance's state. -/
theorem dispatchMessage_routes_exactly_one (w : ScriptWorld) (target : Nat)
    (handler : Nat → Nat) (states : Nat → Nat) :
    (target ∈ w.m_Instances →
      (DispatchMessage w target handler states).1 =
        DispatchResult.DISPATCH_OK ∧
      (DispatchMessage w target handler states).2.1 = [target] ∧
      (DispatchMessage w target handler states).2.2 target =
        handler (states target) ∧
      (∀ i, i ≠ target →
        (DispatchMessage w target handler states).2.2 i = states i)) ∧
    (target ∉ w.m_Instances →
      (DispatchMessage w target handler states).1 =
        DispatchResult.DISPATCH_ROUTING_ERROR ∧
      (DispatchMessage w target handler states).2.1 = [] ∧
      (∀ i, (DispatchMessage w target handler states).2.2 i = states i)) := by
  constructor
  · intro h
    refine ⟨?_, ?_, ?_, ?_⟩ <;> simp [DispatchMessage, h]
    intro i hi
    simp [hi]
  · intro h
    refine ⟨?_, ?_, ?_⟩ <;> simp [DispatchMessage, h]

/-- Witness for C8: world [1, 2]; target 2 is routed to exactly once (state 2
becomes 12, state 1 untouched); target 5 yields a RoutingError with no
invocation and no state change. -/
theorem dispatchMessage_routes_exactly_one_witness :
    ((DispatchMessage ⟨[1, 2]⟩ 2 (fun s => s + 10) (fun i => i)).1 =
        DispatchResult.DISPATCH_OK ∧
      (DispatchMessage ⟨[1, 2]⟩ 2 (fun s => s + 10) (fun i => i)).2.1 = [2] ∧
      (DispatchMessage ⟨[1, 2]⟩ 2 (fun s => s + 10) (fun i => i)).2.2 2 =
        (fun s => s + 10) ((fun i => i) 2) ∧
      (∀ i, i ≠ 2 →
        (DispatchMessage ⟨[1, 2]⟩ 2 (fun s => s + 10) (fun i => i)).2.2 i =
          (fun i => i) i)) ∧
    ((DispatchMessage ⟨[1, 2]⟩ 5 (fun s => s + 10) (fun i => i)).1 =
        DispatchResult.DISPATCH_ROUTING_ERROR ∧
      (DispatchMessage ⟨[1, 2]⟩ 5 (fun s => s + 10) (fun i => i)).2.1 = [] ∧
      (∀ i, (DispatchMessage ⟨[1, 2]⟩ 5 (fun s => s + 10) (fun i => i)).2.2 i =
        (fun i => i) i)) :=
  ⟨(dispatchMessage_routes_exactly_one ⟨[1, 2]⟩ 2 (fun s => s + 10)
      (fun i => i)).1 (by decide),
    (dispatchMessage_routes_exactly_one ⟨[1, 2]⟩ 5 (fun s => s + 10)
      (fun i => i)).2 (by decide)⟩

end dmGameObject
